import Mathlib

/-!
Verification of the weather tool server in `src/main.rs`.

The program exposes two handlers, `get_alerts` and `get_forecast`, each of
which builds a URL, performs one or two HTTP GET requests through the
generic `make_request` helper, decodes the JSON body with serde into fixed
struct shapes, and renders a plain-text summary.

The shallow embedding below models:
  * JSON values (`Json`) and serde-style strict decoding of each struct
    declared in the source (missing required fields fail the whole decode,
    unknown extra fields are ignored, as with serde's derived
    `Deserialize` without `deny_unknown_fields`);
  * the outside world as a function from URL to an HTTP outcome
    (`FetchResult`): a transport-level failure carrying a cause, or a
    response carrying a status code and a JSON body;
  * `make_request` exactly as in the source: transport failure and
    non-200 status map to `Except.error` strings, a 200 status parses the
    body with the caller-supplied decoder;
  * the two handlers, instrumented with the list of URLs they fetch, in
    order, so that sequencing claims ("the second request is never
    attempted") are statable.

String formatting mirrors the source literally; in particular the forecast
template of `src/main.rs` line 128 contains the two characters `Â°`
(U+00C2 U+00B0, bytes c3 82 c2 b0 in the UTF-8 source) between the
temperature and its unit, not the single degree sign U+00B0.
-/

namespace Weather

/-- A JSON value. Numbers are modelled as integers, which covers every
field the program decodes (`temperature` is the only numeric field). -/
inductive Json where
  | null : Json
  | bool : Bool → Json
  | num : Int → Json
  | str : String → Json
  | arr : List Json → Json
  | obj : List (String × Json) → Json

/-- Field lookup on a JSON value: the first binding of the key in an
object, `none` otherwise. -/
def Json.getField (j : Json) (k : String) : Option Json :=
  match j with
  | .obj fields => fields.lookup k
  | _ => .none

/-- serde: decode a JSON string into `String`; anything else fails. -/
def decodeString : Json → Except String String
  | .str s => .ok s
  | _ => .error "invalid type: expected a string"

/-- serde: decode a JSON number into an `i32` (modelled as `Int` with the
`i32` range check); anything else fails. -/
def decodeI32 : Json → Except String Int
  | .num n =>
      if -2147483648 ≤ n ∧ n < 2147483648 then .ok n
      else .error "invalid value: integer out of range for i32"
  | _ => .error "invalid type: expected an integer"

/-- serde: decode a required struct field. A missing field fails the whole
decode. -/
def decodeField {α : Type} (j : Json) (k : String)
    (d : Json → Except String α) : Except String α :=
  match j.getField k with
  | .some v => d v
  | .none => .error ("missing field " ++ k)

/-- serde: decode the elements of a JSON array in order, failing at the
first element that fails. -/
def decodeElems {α : Type} (d : Json → Except String α) :
    List Json → Except String (List α)
  | [] => .ok []
  | x :: xs =>
      match d x with
      | .error e => .error e
      | .ok v =>
          match decodeElems d xs with
          | .error e => .error e
          | .ok vs => .ok (v :: vs)

/-- serde: decode a JSON array into a `Vec`; anything else fails. -/
def decodeArray {α : Type} (d : Json → Except String α) :
    Json → Except String (List α)
  | .arr xs => decodeElems d xs
  | _ => .error "invalid type: expected a sequence"

/-- `FeatureProps` of `src/main.rs`: the five text fields of one alert. -/
structure FeatureProps where
  event : String
  area_desc : String
  severity : String
  status : String
  headline : String

/-- `Feature` of `src/main.rs`: one alert record. -/
structure Feature where
  properties : FeatureProps

/-- `AlertResponse` of `src/main.rs`. -/
structure AlertResponse where
  features : List Feature

/-- `PointsProps` of `src/main.rs`. -/
structure PointsProps where
  forecast : String

/-- `PointsResponse` of `src/main.rs`. -/
structure PointsResponse where
  properties : PointsProps

/-- `Period` of `src/main.rs`: one forecast time window. -/
structure Period where
  name : String
  temperature : Int
  temperature_unit : String
  wind_speed : String
  wind_direction : String
  short_forecast : String

/-- `GridPointsProps` of `src/main.rs`. -/
structure GridPointsProps where
  periods : List Period

/-- `GridPointsResponse` of `src/main.rs`. -/
structure GridPointsResponse where
  properties : GridPointsProps

/-- Derived `Deserialize` for `FeatureProps` (with the serde rename
`areaDesc` for `area_desc`). -/
def FeatureProps.decode (j : Json) : Except String FeatureProps := do
  let event ← decodeField j "event" decodeString
  let area ← decodeField j "areaDesc" decodeString
  let severity ← decodeField j "severity" decodeString
  let status ← decodeField j "status" decodeString
  let headline ← decodeField j "headline" decodeString
  pure ⟨event, area, severity, status, headline⟩

/-- Derived `Deserialize` for `Feature`. -/
def Feature.decode (j : Json) : Except String Feature := do
  let props ← decodeField j "properties" FeatureProps.decode
  pure ⟨props⟩

/-- Derived `Deserialize` for `AlertResponse`. -/
def AlertResponse.decode (j : Json) : Except String AlertResponse := do
  let features ← decodeField j "features" (decodeArray Feature.decode)
  pure ⟨features⟩

/-- Derived `Deserialize` for `PointsProps`. -/
def PointsProps.decode (j : Json) : Except String PointsProps := do
  let forecast ← decodeField j "forecast" decodeString
  pure ⟨forecast⟩

/-- Derived `Deserialize` for `PointsResponse`. -/
def PointsResponse.decode (j : Json) : Except String PointsResponse := do
  let props ← decodeField j "properties" PointsProps.decode
  pure ⟨props⟩

/-- Derived `Deserialize` for `Period` (with the serde renames
`temperatureUnit`, `windSpeed`, `windDirection`, `shortForecast`). -/
def Period.decode (j : Json) : Except String Period := do
  let name ← decodeField j "name" decodeString
  let temperature ← decodeField j "temperature" decodeI32
  let unit ← decodeField j "temperatureUnit" decodeString
  let wind_speed ← decodeField j "windSpeed" decodeString
  let wind_direction ← decodeField j "windDirection" decodeString
  let short_forecast ← decodeField j "shortForecast" decodeString
  pure ⟨name, temperature, unit, wind_speed, wind_direction, short_forecast⟩

/-- Derived `Deserialize` for `GridPointsProps`. -/
def GridPointsProps.decode (j : Json) : Except String GridPointsProps := do
  let periods ← decodeField j "periods" (decodeArray Period.decode)
  pure ⟨periods⟩

/-- Derived `Deserialize` for `GridPointsResponse`. -/
def GridPointsResponse.decode (j : Json) : Except String GridPointsResponse := do
  let props ← decodeField j "properties" GridPointsProps.decode
  pure ⟨props⟩

/-- `NWS_API_BASE` of `src/main.rs`. -/
def NWS_API_BASE : String := "https://api.weather.gov"

/-- The outcome the network delivers for one GET request: a
transport-level failure with its cause, or an HTTP response with a status
code and a JSON body. -/
inductive FetchResult where
  | transport : String → FetchResult
  | http : Nat → Json → FetchResult

/-- A world assigns to every URL the outcome of fetching it. -/
def World : Type := String → FetchResult

/-- `Weather::make_request` of `src/main.rs`: a transport failure maps to
`Request failed: <cause>`; a 200 response is decoded with the
caller-supplied shape, a decode failure mapping to
`Failed to parse response: <cause>`; any other status maps to
`Request failed with status: <status>`. -/
def make_request {α : Type} (world : World) (dec : Json → Except String α)
    (url : String) : Except String α :=
  match world url with
  | .transport e => .error ("Request failed: " ++ e)
  | .http status body =>
      if status = 200 then
        match dec body with
        | .ok v => .ok v
        | .error e => .error ("Failed to parse response: " ++ e)
      else
        .error ("Request failed with status: " ++ toString status)

/-- The block `format_alerts` pushes for one alert. -/
def featureBlock (alert : Feature) : String :=
  "Event: " ++ alert.properties.event ++
  "\nArea: " ++ alert.properties.area_desc ++
  "\nSeverity: " ++ alert.properties.severity ++
  "\nStatus: " ++ alert.properties.status ++
  "\nHeadline: " ++ alert.properties.headline ++ "\n---\n"

/-- `format_alerts` of `src/main.rs`. -/
def format_alerts (alerts : List Feature) : String :=
  if alerts.isEmpty then "No active alerts found."
  else alerts.foldl (fun result alert => result ++ featureBlock alert) ""

/-- The block `format_forecast` pushes for one period. Between the
temperature and its unit the source template (line 128) contains the two
characters `Â°` (U+00C2 then U+00B0), reproduced here verbatim. -/
def periodBlock (period : Period) : String :=
  "Name: " ++ period.name ++
  "\nTemperature: " ++ toString period.temperature ++ "Â°" ++
  period.temperature_unit ++
  "\nWind: " ++ period.wind_speed ++ " " ++ period.wind_direction ++
  "\nForecast: " ++ period.short_forecast ++ "\n---\n"

/-- `format_forecast` of `src/main.rs`. -/
def format_forecast (periods : List Period) : String :=
  if periods.isEmpty then "No forecast data available."
  else periods.foldl (fun result period => result ++ periodBlock period) ""

/-- One call of `make_request`, paired with the singleton trace of the URL
it fetched. -/
def make_requestT {α : Type} (world : World) (dec : Json → Except String α)
    (url : String) : Except String α × List String :=
  (make_request world dec url, [url])

/-- `Weather::get_alerts` of `src/main.rs`, instrumented with the list of
URLs fetched, in order. -/
def get_alertsT (world : World) (state : String) : String × List String :=
  let url := NWS_API_BASE ++ "/alerts/active?area=" ++ state
  let fetched := make_requestT world AlertResponse.decode url
  match fetched.1 with
  | .ok alerts => (format_alerts alerts.features, fetched.2)
  | .error _ => ("No alerts found or an error occurred.", fetched.2)

/-- `Weather::get_alerts` of `src/main.rs`: the text returned to the
caller. -/
def get_alerts (world : World) (state : String) : String :=
  (get_alertsT world state).1

/-- `Weather::get_forecast` of `src/main.rs`, instrumented with the list
of URLs fetched, in order: the points lookup first, then, only when it
succeeded, the grid-points URL taken from its decoded response. -/
def get_forecastT (world : World) (latitude longitude : String) :
    String × List String :=
  let points_url := NWS_API_BASE ++ "/points/" ++ latitude ++ "," ++ longitude
  let first := make_requestT world PointsResponse.decode points_url
  match first.1 with
  | .error _ => ("No forecast found or an error occurred.", first.2)
  | .ok points =>
      let second :=
        make_requestT world GridPointsResponse.decode points.properties.forecast
      match second.1 with
      | .ok forecast =>
          (format_forecast forecast.properties.periods, first.2 ++ second.2)
      | .error _ =>
          ("No forecast found or an error occurred.", first.2 ++ second.2)

/-- `Weather::get_forecast` of `src/main.rs`: the text returned to the
caller. -/
def get_forecast (world : World) (latitude longitude : String) : String :=
  (get_forecastT world latitude longitude).1

/-- The alert block as the specification's template words prescribe it:
`Event: <event>\nArea: <area>\nSeverity: <severity>\nStatus: <status>\nHeadline: <headline>\n---\n`. -/
def specAlertBlock (alert : Feature) : String :=
  "Event: " ++ alert.properties.event ++
  "\nArea: " ++ alert.properties.area_desc ++
  "\nSeverity: " ++ alert.properties.severity ++
  "\nStatus: " ++ alert.properties.status ++
  "\nHeadline: " ++ alert.properties.headline ++ "\n---\n"

/-- The forecast block as the specification's template words prescribe it,
with the single degree sign U+00B0 directly before the temperature unit:
`Name: <name>\nTemperature: <temperature>°<temperatureUnit>\nWind: <windSpeed> <windDirection>\nForecast: <shortForecast>\n---\n`. -/
def specForecastBlock (period : Period) : String :=
  "Name: " ++ period.name ++
  "\nTemperature: " ++ toString period.temperature ++ "°" ++
  period.temperature_unit ++
  "\nWind: " ++ period.wind_speed ++ " " ++ period.wind_direction ++
  "\nForecast: " ++ period.short_forecast ++ "\n---\n"

/-! ### Helper lemmas -/

lemma except_bind_ok {α β : Type} {x : Except String α} {f : α → Except String β}
    {v : β} (h : x >>= f = .ok v) : ∃ w, x = .ok w ∧ f w = .ok v := by
  cases x with
  | error e => simp [Bind.bind, Except.bind] at h
  | ok w => exact ⟨w, rfl, by simpa [Bind.bind, Except.bind] using h⟩

lemma join_foldl : ∀ (xs : List String) (x : String),
    xs.foldl (fun a b => a ++ b) x = x ++ String.join xs := by
  intro xs
  induction xs with
  | nil => intro x; simp [String.join, String.append_empty]
  | cons y ys ih =>
      intro x
      have h1 : (y :: ys).foldl (fun a b => a ++ b) x =
          ys.foldl (fun a b => a ++ b) (x ++ y) := rfl
      have h2 : String.join (y :: ys) = ys.foldl (fun a b => a ++ b) y := by
        simp [String.join, String.empty_append]
      rw [h1, ih, h2, ih y, ← String.append_assoc]

lemma join_cons (y : String) (ys : List String) :
    String.join (y :: ys) = y ++ String.join ys := by
  have h2 : String.join (y :: ys) = ys.foldl (fun a b => a ++ b) y := by
    simp [String.join, String.empty_append]
  rw [h2, join_foldl]

lemma format_alerts_eq_join (alerts : List Feature) (h : alerts ≠ []) :
    format_alerts alerts = String.join (alerts.map featureBlock) := by
  unfold format_alerts
  rw [if_neg (by simp [List.isEmpty_iff, h])]
  calc alerts.foldl (fun result alert => result ++ featureBlock alert) ""
      = (alerts.map featureBlock).foldl (fun a b => a ++ b) "" := by
        rw [List.foldl_map]
    _ = "" ++ String.join (alerts.map featureBlock) := join_foldl _ ""
    _ = String.join (alerts.map featureBlock) := String.empty_append _

lemma format_forecast_eq_join (periods : List Period) (h : periods ≠ []) :
    format_forecast periods = String.join (periods.map periodBlock) := by
  unfold format_forecast
  rw [if_neg (by simp [List.isEmpty_iff, h])]
  calc periods.foldl (fun result period => result ++ periodBlock period) ""
      = (periods.map periodBlock).foldl (fun a b => a ++ b) "" := by
        rw [List.foldl_map]
    _ = "" ++ String.join (periods.map periodBlock) := join_foldl _ ""
    _ = String.join (periods.map periodBlock) := String.empty_append _

lemma join_ends_with_sep : ∀ (bs : List String), bs ≠ [] →
    (∀ b ∈ bs, ∃ g, b = g ++ "\n---\n") →
    ∃ s, String.join bs = s ++ "\n---\n" := by
  intro bs
  induction bs with
  | nil => intro h; exact absurd rfl h
  | cons b bs ih =>
      intro _ hall
      cases bs with
      | nil =>
          obtain ⟨g, hg⟩ := hall b (List.mem_cons_self b [])
          refine ⟨g, ?_⟩
          rw [join_cons, String.join, List.foldl_nil, String.append_empty, hg]
      | cons c cs =>
          obtain ⟨s, hs⟩ := ih (by simp) (fun x hx => hall x (List.mem_cons_of_mem b hx))
          refine ⟨b ++ s, ?_⟩
          rw [join_cons, hs, String.append_assoc]

lemma append_sep_ne {s t : String} (ht : t.data.getLast? = some '.') :
    s ++ "\n---\n" ≠ t := by
  intro he
  have hd : (s ++ "\n---\n").data = t.data := by rw [he]
  rw [String.data_append] at hd
  have h1 : (s.data ++ ("\n---\n" : String).data).getLast? = some '\n' := by
    rw [List.getLast?_append_of_ne_nil s.data (by decide)]
    decide
  rw [hd, ht] at h1
  exact absurd (Option.some.inj h1) (by decide)

lemma decodeField_ok {α : Type} {j : Json} {k : String} {d : Json → Except String α}
    {v : α} (h : decodeField j k d = .ok v) :
    ∃ x, j.getField k = .some x ∧ d x = .ok v := by
  unfold decodeField at h
  cases hx : j.getField k with
  | none => rw [hx] at h; simp at h
  | some x => rw [hx] at h; exact ⟨x, rfl, h⟩

lemma decodeField_missing {α : Type} {j : Json} (k : String)
    (d : Json → Except String α) (h : j.getField k = .none) :
    decodeField j k d = .error ("missing field " ++ k) := by
  unfold decodeField
  rw [h]

lemma decodeString_ok {x : Json} {s : String} (h : decodeString x = .ok s) :
    x = .str s := by
  cases x <;> simp_all [decodeString]

lemma decodeI32_ok {x : Json} {n : Int} (h : decodeI32 x = .ok n) :
    x = .num n ∧ -2147483648 ≤ n ∧ n < 2147483648 := by
  cases x <;> simp_all [decodeI32]
  case num m =>
    split at h
    · simp_all
    · simp at h

lemma decodeElems_ok_mem {α : Type} {d : Json → Except String α} :
    ∀ {xs : List Json} {vs : List α}, decodeElems d xs = .ok vs →
      ∀ x ∈ xs, ∃ v, d x = .ok v := by
  intro xs
  induction xs with
  | nil => intro vs _ x hx; simp at hx
  | cons y ys ih =>
      intro vs h x hx
      unfold decodeElems at h
      cases hy : d y with
      | error e => rw [hy] at h; simp at h
      | ok v =>
          rw [hy] at h
          cases hr : decodeElems d ys with
          | error e => rw [hr] at h; simp at h
          | ok ws =>
              rcases List.mem_cons.mp hx with rfl | hx2
              · exact ⟨v, hy⟩
              · exact ih hr x hx2

lemma decodeElems_error_of_mem {α : Type} {d : Json → Except String α}
    {xs : List Json} {x : Json} (hx : x ∈ xs) {e : String}
    (he : d x = .error e) : ∃ e2, decodeElems d xs = .error e2 := by
  cases hr : decodeElems d xs with
  | error e2 => exact ⟨e2, rfl⟩
  | ok vs =>
      obtain ⟨v, hv⟩ := decodeElems_ok_mem hr x hx
      rw [hv] at he
      simp at he

lemma featureProps_decode_ok {j : Json} {p : FeatureProps}
    (h : FeatureProps.decode j = .ok p) :
    ∃ ev ar sv st hd,
      j.getField "event" = .some (.str ev) ∧
      j.getField "areaDesc" = .some (.str ar) ∧
      j.getField "severity" = .some (.str sv) ∧
      j.getField "status" = .some (.str st) ∧
      j.getField "headline" = .some (.str hd) ∧
      p = ⟨ev, ar, sv, st, hd⟩ := by
  unfold FeatureProps.decode at h
  obtain ⟨ev, hev, h⟩ := except_bind_ok h
  obtain ⟨ar, har, h⟩ := except_bind_ok h
  obtain ⟨sv, hsv, h⟩ := except_bind_ok h
  obtain ⟨st, hst, h⟩ := except_bind_ok h
  obtain ⟨hl, hhl, h⟩ := except_bind_ok h
  obtain ⟨x1, hx1, hd1⟩ := decodeField_ok hev
  obtain ⟨x2, hx2, hd2⟩ := decodeField_ok har
  obtain ⟨x3, hx3, hd3⟩ := decodeField_ok hsv
  obtain ⟨x4, hx4, hd4⟩ := decodeField_ok hst
  obtain ⟨x5, hx5, hd5⟩ := decodeField_ok hhl
  rw [decodeString_ok hd1] at hx1
  rw [decodeString_ok hd2] at hx2
  rw [decodeString_ok hd3] at hx3
  rw [decodeString_ok hd4] at hx4
  rw [decodeString_ok hd5] at hx5
  have hp : p = ⟨ev, ar, sv, st, hl⟩ := by
    simpa [pure, Except.pure] using h.symm
  exact ⟨ev, ar, sv, st, hl, hx1, hx2, hx3, hx4, hx5, hp⟩

lemma featureProps_decode_missing {j : Json}
    (h : j.getField "event" = .none ∨ j.getField "areaDesc" = .none ∨
         j.getField "severity" = .none ∨ j.getField "status" = .none ∨
         j.getField "headline" = .none) :
    ∃ e, FeatureProps.decode j = .error e := by
  cases hr : FeatureProps.decode j with
  | error e => exact ⟨e, rfl⟩
  | ok p =>
      obtain ⟨ev, ar, sv, st, hl, h1, h2, h3, h4, h5, _⟩ :=
        featureProps_decode_ok hr
      rcases h with h | h | h | h | h <;> simp_all

lemma period_decode_ok {j : Json} {p : Period}
    (h : Period.decode j = .ok p) :
    ∃ nm t tu ws wd sf,
      j.getField "name" = .some (.str nm) ∧
      j.getField "temperature" = .some (.num t) ∧
      j.getField "temperatureUnit" = .some (.str tu) ∧
      j.getField "windSpeed" = .some (.str ws) ∧
      j.getField "windDirection" = .some (.str wd) ∧
      j.getField "shortForecast" = .some (.str sf) ∧
      -2147483648 ≤ t ∧ t < 2147483648 ∧
      p = ⟨nm, t, tu, ws, wd, sf⟩ := by
  unfold Period.decode at h
  obtain ⟨nm, hnm, h⟩ := except_bind_ok h
  obtain ⟨t, ht, h⟩ := except_bind_ok h
  obtain ⟨tu, htu, h⟩ := except_bind_ok h
  obtain ⟨ws, hws, h⟩ := except_bind_ok h
  obtain ⟨wd, hwd, h⟩ := except_bind_ok h
  obtain ⟨sf, hsf, h⟩ := except_bind_ok h
  obtain ⟨x1, hx1, hd1⟩ := decodeField_ok hnm
  obtain ⟨x2, hx2, hd2⟩ := decodeField_ok ht
  obtain ⟨x3, hx3, hd3⟩ := decodeField_ok htu
  obtain ⟨x4, hx4, hd4⟩ := decodeField_ok hws
  obtain ⟨x5, hx5, hd5⟩ := decodeField_ok hwd
  obtain ⟨x6, hx6, hd6⟩ := decodeField_ok hsf
  rw [decodeString_ok hd1] at hx1
  obtain ⟨hx2e, hlo, hhi⟩ := decodeI32_ok hd2
  rw [hx2e] at hx2
  rw [decodeString_ok hd3] at hx3
  rw [decodeString_ok hd4] at hx4
  rw [decodeString_ok hd5] at hx5
  rw [decodeString_ok hd6] at hx6
  have hp : p = ⟨nm, t, tu, ws, wd, sf⟩ := by
    simpa [pure, Except.pure] using h.symm
  exact ⟨nm, t, tu, ws, wd, sf, hx1, hx2, hx3, hx4, hx5, hx6, hlo, hhi, hp⟩

lemma period_decode_missing {j : Json}
    (h : j.getField "name" = .none ∨ j.getField "temperature" = .none ∨
         j.getField "temperatureUnit" = .none ∨ j.getField "windSpeed" = .none ∨
         j.getField "windDirection" = .none ∨ j.getField "shortForecast" = .none) :
    ∃ e, Period.decode j = .error e := by
  cases hr : Period.decode j with
  | error e => exact ⟨e, rfl⟩
  | ok p =>
      obtain ⟨nm, t, tu, ws, wd, sf, h1, h2, h3, h4, h5, h6, _⟩ :=
        period_decode_ok hr
      rcases h with h | h | h | h | h | h <;> simp_all

lemma alertResponse_decode_ok {j : Json} {r : AlertResponse}
    (h : AlertResponse.decode j = .ok r) :
    ∃ items, j.getField "features" = .some (.arr items) ∧
      decodeElems Feature.decode items = .ok r.features := by
  unfold AlertResponse.decode at h
  obtain ⟨fs, hfs, h⟩ := except_bind_ok h
  obtain ⟨x, hx, hdx⟩ := decodeField_ok hfs
  have hr : r = ⟨fs⟩ := by
    simpa [pure, Except.pure] using h.symm
  cases x with
  | arr items =>
      refine ⟨items, hx, ?_⟩
      rw [hr]
      simpa [decodeArray] using hdx
  | null => simp [decodeArray] at hdx
  | bool b => simp [decodeArray] at hdx
  | num n => simp [decodeArray] at hdx
  | str s => simp [decodeArray] at hdx
  | obj fields => simp [decodeArray] at hdx

lemma feature_decode_ok {j : Json} {f : Feature}
    (h : Feature.decode j = .ok f) :
    ∃ pj, j.getField "properties" = .some pj ∧
      FeatureProps.decode pj = .ok f.properties := by
  unfold Feature.decode at h
  obtain ⟨props, hprops, h⟩ := except_bind_ok h
  obtain ⟨x, hx, hdx⟩ := decodeField_ok hprops
  have hf : f = ⟨props⟩ := by
    simpa [pure, Except.pure] using h.symm
  exact ⟨x, hx, by rw [hf]; exact hdx⟩

lemma gridPointsResponse_decode_ok {j : Json} {r : GridPointsResponse}
    (h : GridPointsResponse.decode j = .ok r) :
    ∃ pj, j.getField "properties" = .some pj ∧
      ∃ items, pj.getField "periods" = .some (.arr items) ∧
        decodeElems Period.decode items = .ok r.properties.periods := by
  unfold GridPointsResponse.decode at h
  obtain ⟨props, hprops, h⟩ := except_bind_ok h
  obtain ⟨x, hx, hdx⟩ := decodeField_ok hprops
  have hr : r = ⟨props⟩ := by
    simpa [pure, Except.pure] using h.symm
  refine ⟨x, hx, ?_⟩
  unfold GridPointsProps.decode at hdx
  obtain ⟨ps, hps, hdx⟩ := except_bind_ok hdx
  obtain ⟨y, hy, hdy⟩ := decodeField_ok hps
  have hprops2 : props = ⟨ps⟩ := by
    simpa [pure, Except.pure] using hdx.symm
  cases y with
  | arr items =>
      refine ⟨items, hy, ?_⟩
      rw [hr, hprops2]
      simpa [decodeArray] using hdy
  | null => simp [decodeArray] at hdy
  | bool b => simp [decodeArray] at hdy
  | num n => simp [decodeArray] at hdy
  | str s => simp [decodeArray] at hdy
  | obj fields => simp [decodeArray] at hdy

lemma pointsProps_decode_ok {j : Json} {p : PointsProps}
    (h : PointsProps.decode j = .ok p) :
    ∃ u, j.getField "forecast" = .some (.str u) ∧ p = ⟨u⟩ := by
  unfold PointsProps.decode at h
  obtain ⟨u, hu, h⟩ := except_bind_ok h
  obtain ⟨y, hy, hdy⟩ := decodeField_ok hu
  rw [decodeString_ok hdy] at hy
  have hp : p = ⟨u⟩ := by
    simpa [pure, Except.pure] using h.symm
  exact ⟨u, hy, hp⟩

lemma pointsResponse_decode_ok {j : Json} {r : PointsResponse}
    (h : PointsResponse.decode j = .ok r) :
    ∃ pj, j.getField "properties" = .some pj ∧
      ∃ u, pj.getField "forecast" = .some (.str u) ∧ r = ⟨⟨u⟩⟩ := by
  unfold PointsResponse.decode at h
  obtain ⟨props, hprops, h⟩ := except_bind_ok h
  obtain ⟨x, hx, hdx⟩ := decodeField_ok hprops
  have hr : r = ⟨props⟩ := by
    simpa [pure, Except.pure] using h.symm
  obtain ⟨u, hu, hp⟩ := pointsProps_decode_ok hdx
  exact ⟨x, hx, u, hu, by rw [hr, hp]⟩

lemma gridPointsProps_decode_ok {j : Json} {p : GridPointsProps}
    (h : GridPointsProps.decode j = .ok p) :
    ∃ items, j.getField "periods" = .some (.arr items) ∧
      decodeElems Period.decode items = .ok p.periods := by
  unfold GridPointsProps.decode at h
  obtain ⟨ps, hps, h⟩ := except_bind_ok h
  obtain ⟨y, hy, hdy⟩ := decodeField_ok hps
  have hp : p = ⟨ps⟩ := by
    simpa [pure, Except.pure] using h.symm
  cases y with
  | arr items =>
      refine ⟨items, hy, ?_⟩
      rw [hp]
      simpa [decodeArray] using hdy
  | null => simp [decodeArray] at hdy
  | bool b => simp [decodeArray] at hdy
  | num n => simp [decodeArray] at hdy
  | str s => simp [decodeArray] at hdy
  | obj fields => simp [decodeArray] at hdy

lemma alertResponse_decode_error_of_bad_item {items : List Json} {x : Json}
    (hx : x ∈ items) {e : String} (he : Feature.decode x = .error e) :
    ∃ e2, AlertResponse.decode (Json.obj [("features", Json.arr items)]) = .error e2 := by
  cases hr : AlertResponse.decode (Json.obj [("features", Json.arr items)]) with
  | error e2 => exact ⟨e2, rfl⟩
  | ok r =>
      obtain ⟨items2, hitems, helems⟩ := alertResponse_decode_ok hr
      have hget : (Json.obj [("features", Json.arr items)]).getField "features" =
          .some (.arr items) := rfl
      rw [hget] at hitems
      have hii : items2 = items := by
        injection hitems with h1
        injection h1 with h2
        exact h2.symm
      rw [hii] at helems
      obtain ⟨e2, he2⟩ := decodeElems_error_of_mem hx he
      rw [he2] at helems
      simp at helems

lemma decodeElems_ok_length {α : Type} {d : Json → Except String α} :
    ∀ {xs : List Json} {vs : List α}, decodeElems d xs = .ok vs →
      xs.length = vs.length := by
  intro xs
  induction xs with
  | nil =>
      intro vs h
      unfold decodeElems at h
      simp_all
  | cons y ys ih =>
      intro vs h
      unfold decodeElems at h
      cases hy : d y with
      | error e => rw [hy] at h; simp at h
      | ok v =>
          rw [hy] at h
          cases hr : decodeElems d ys with
          | error e => rw [hr] at h; simp at h
          | ok ws =>
              rw [hr] at h
              simp at h
              rw [← h, List.length_cons, List.length_cons, ih hr]

/-! ### Claims -/

/-- Claim C1: whenever the fetch-and-decode of the alerts endpoint fails
for any reason, `get_alerts` returns exactly
"No alerts found or an error occurred.", and the text returned is the same
for every failing fetch, so no detail of the underlying error appears in
it. -/
theorem get_alerts_failure_sentinel (world : World) (state e : String)
    (h : make_request world AlertResponse.decode
      (NWS_API_BASE ++ "/alerts/active?area=" ++ state) = .error e) :
    get_alerts world state = "No alerts found or an error occurred." ∧
    ∀ (world2 : World) (e2 : String),
      make_request world2 AlertResponse.decode
        (NWS_API_BASE ++ "/alerts/active?area=" ++ state) = .error e2 →
      get_alerts world state = get_alerts world2 state := by
  have main : ∀ (w : World) (e3 : String),
      make_request w AlertResponse.decode
        (NWS_API_BASE ++ "/alerts/active?area=" ++ state) = .error e3 →
      get_alerts w state = "No alerts found or an error occurred." := by
    intro w e3 h3
    simp [get_alerts, get_alertsT, make_requestT, h3]
  exact ⟨main world e h,
    fun w2 e2 h2 => by rw [main world e h, main w2 e2 h2]⟩

/-- Witness for C1: a transport failure yields the sentinel text. -/
theorem get_alerts_failure_sentinel_witness :
    get_alerts (fun _ => FetchResult.transport "connection refused") "CA" =
      "No alerts found or an error occurred." :=
  (get_alerts_failure_sentinel (fun _ => FetchResult.transport "connection refused")
    "CA" ("Request failed: " ++ "connection refused") rfl).1

/-- Claim C2: when the points lookup fails, `get_forecast` returns exactly
"No forecast found or an error occurred." and the only URL fetched is the
points URL, so the second request is never attempted; and when the points
lookup succeeds, the fetched URLs are exactly the points URL followed by
the forecast URL of the decoded points response, so the second request
happens only after the first succeeds. -/
theorem get_forecast_points_failure_short_circuits (world : World)
    (latitude longitude : String) :
    (∀ e, make_request world PointsResponse.decode
        (NWS_API_BASE ++ "/points/" ++ latitude ++ "," ++ longitude) = .error e →
      get_forecast world latitude longitude =
        "No forecast found or an error occurred." ∧
      (get_forecastT world latitude longitude).2 =
        [NWS_API_BASE ++ "/points/" ++ latitude ++ "," ++ longitude]) ∧
    (∀ p, make_request world PointsResponse.decode
        (NWS_API_BASE ++ "/points/" ++ latitude ++ "," ++ longitude) = .ok p →
      (get_forecastT world latitude longitude).2 =
        [NWS_API_BASE ++ "/points/" ++ latitude ++ "," ++ longitude,
         p.properties.forecast]) := by
  constructor
  · intro e he
    exact ⟨by simp [get_forecast, get_forecastT, make_requestT, he],
      by simp [get_forecastT, make_requestT, he]⟩
  · intro p hp
    cases h2 : make_request world GridPointsResponse.decode p.properties.forecast with
    | ok f => simp [get_forecastT, make_requestT, hp, h2]
    | error e => simp [get_forecastT, make_requestT, hp, h2]

/-- Witness for C2: a 404 at the points endpoint yields the sentinel and a
one-element trace. -/
theorem get_forecast_points_failure_short_circuits_witness :
    get_forecast (fun _ => FetchResult.http 404 Json.null) "39.74" "-104.99" =
      "No forecast found or an error occurred." ∧
    (get_forecastT (fun _ => FetchResult.http 404 Json.null) "39.74" "-104.99").2 =
      [NWS_API_BASE ++ "/points/" ++ "39.74" ++ "," ++ "-104.99"] :=
  (get_forecast_points_failure_short_circuits
    (fun _ => FetchResult.http 404 Json.null) "39.74" "-104.99").1
    ("Request failed with status: " ++ toString 404) rfl

/-- Claim C5: a successful alerts fetch whose decoded list is empty makes
`get_alerts` return exactly "No active alerts found.". -/
theorem get_alerts_empty_list_sentinel (world : World) (state : String)
    (resp : AlertResponse)
    (hok : make_request world AlertResponse.decode
      (NWS_API_BASE ++ "/alerts/active?area=" ++ state) = .ok resp)
    (hempty : resp.features = []) :
    get_alerts world state = "No active alerts found." := by
  simp [get_alerts, get_alertsT, make_requestT, hok, format_alerts, hempty]

/-- Witness for C5: a 200 response whose features array is empty. -/
theorem get_alerts_empty_list_sentinel_witness :
    get_alerts (fun _ => FetchResult.http 200 (Json.obj [("features", Json.arr [])]))
      "CA" = "No active alerts found." :=
  get_alerts_empty_list_sentinel
    (fun _ => FetchResult.http 200 (Json.obj [("features", Json.arr [])]))
    "CA" ⟨[]⟩ rfl rfl

/-- Claim C6: when both fetches of `get_forecast` succeed and the decoded
period list is empty, the result is exactly "No forecast data available.". -/
theorem get_forecast_empty_periods_sentinel (world : World)
    (latitude longitude : String) (p : PointsResponse) (f : GridPointsResponse)
    (h1 : make_request world PointsResponse.decode
      (NWS_API_BASE ++ "/points/" ++ latitude ++ "," ++ longitude) = .ok p)
    (h2 : make_request world GridPointsResponse.decode
      p.properties.forecast = .ok f)
    (hempty : f.properties.periods = []) :
    get_forecast world latitude longitude = "No forecast data available." := by
  simp [get_forecast, get_forecastT, make_requestT, h1, h2, format_forecast, hempty]

/-- A two-endpoint world for the C6 witness: the points URL resolves to a
grid URL whose response holds an empty period list. -/
def emptyForecastWorld : World := fun u =>
  if u = "https://api.weather.gov/points/39.74,-104.99" then
    FetchResult.http 200
      (Json.obj [("properties",
        Json.obj [("forecast",
          Json.str "https://api.weather.gov/gridpoints/BOU/62,61/forecast")])])
  else
    FetchResult.http 200
      (Json.obj [("properties", Json.obj [("periods", Json.arr [])])])

/-- Witness for C6: both fetches succeed, zero periods. -/
theorem get_forecast_empty_periods_sentinel_witness :
    get_forecast emptyForecastWorld "39.74" "-104.99" =
      "No forecast data available." :=
  get_forecast_empty_periods_sentinel emptyForecastWorld "39.74" "-104.99"
    ⟨⟨"https://api.weather.gov/gridpoints/BOU/62,61/forecast"⟩⟩ ⟨⟨[]⟩⟩
    rfl rfl rfl

/-- Claim C7: `make_request` parses the body and returns the value exactly
when the status is the success status 200 (failing with a decode error
when parsing fails), returns an error carrying the status code on any
other status — never a value — and returns an error carrying the cause on
a transport-level failure. -/
theorem make_request_contract (α : Type) (dec : Json → Except String α)
    (world : World) (url : String) :
    (∀ c, world url = .transport c →
      make_request world dec url = .error ("Request failed: " ++ c)) ∧
    (∀ body v, world url = .http 200 body → dec body = .ok v →
      make_request world dec url = .ok v) ∧
    (∀ body e, world url = .http 200 body → dec body = .error e →
      make_request world dec url = .error ("Failed to parse response: " ++ e)) ∧
    (∀ s body, world url = .http s body → s ≠ 200 →
      make_request world dec url =
        .error ("Request failed with status: " ++ toString s) ∧
      ∀ v, make_request world dec url ≠ .ok v) := by
  refine ⟨?_, ?_, ?_, ?_⟩
  · intro c hc
    simp [make_request, hc]
  · intro body v hb hd
    simp [make_request, hb, hd]
  · intro body e hb hd
    simp [make_request, hb, hd]
  · intro s body hb hs
    refine ⟨by simp [make_request, hb, hs], ?_⟩
    intro v
    simp [make_request, hb, hs]

/-- Witness for C7: all four contract cases at concrete inputs. -/
theorem make_request_contract_witness :
    make_request (fun _ => FetchResult.transport "dns failure") decodeString "u" =
      .error ("Request failed: " ++ "dns failure") ∧
    make_request (fun _ => FetchResult.http 200 (Json.str "ok")) decodeString "u" =
      .ok "ok" ∧
    make_request (fun _ => FetchResult.http 200 Json.null) decodeString "u" =
      .error ("Failed to parse response: " ++ "invalid type: expected a string") ∧
    make_request (fun _ => FetchResult.http 404 Json.null) decodeString "u" =
      .error ("Request failed with status: " ++ toString 404) := by
  refine ⟨?_, ?_, ?_, ?_⟩
  · exact (make_request_contract String decodeString
      (fun _ => FetchResult.transport "dns failure") "u").1 "dns failure" rfl
  · exact (make_request_contract String decodeString
      (fun _ => FetchResult.http 200 (Json.str "ok")) "u").2.1 (Json.str "ok") "ok" rfl rfl
  · exact (make_request_contract String decodeString
      (fun _ => FetchResult.http 200 Json.null) "u").2.2.1 Json.null
      "invalid type: expected a string" rfl rfl
  · exact ((make_request_contract String decodeString
      (fun _ => FetchResult.http 404 Json.null) "u").2.2.2 404 Json.null rfl
      (by decide)).1

/-- Claim C3 fails on the code: between the temperature digits and the
unit, `format_forecast` emits the two characters U+00C2 and U+00B0 (the
source template holds the mojibake bytes c3 82 c2 b0), not the single
degree sign U+00B0 that the specification's template prescribes, so the
output at the specification's own example period differs from the
specified block. -/
theorem format_forecast_mojibake_between_temp_and_unit :
    format_forecast [⟨"Tonight", 40, "F", "5 mph", "NW", "Clear"⟩] =
      "Name: Tonight\nTemperature: 40" ++
        String.mk [Char.ofNat 194, Char.ofNat 176] ++
        "F\nWind: 5 mph NW\nForecast: Clear\n---\n" ∧
    format_forecast [⟨"Tonight", 40, "F", "5 mph", "NW", "Clear"⟩] ≠
      "Name: Tonight\nTemperature: 40" ++ String.mk [Char.ofNat 176] ++
        "F\nWind: 5 mph NW\nForecast: Clear\n---\n" ∧
    format_forecast [⟨"Tonight", 40, "F", "5 mph", "NW", "Clear"⟩] ≠
      specForecastBlock ⟨"Tonight", 40, "F", "5 mph", "NW", "Clear"⟩ := by
  refine ⟨by decide, by decide, by decide⟩

/-- Claim C4: a successful alerts fetch with a non-empty decoded list
makes `get_alerts` return exactly the concatenation, in input order, of
one block per alert of the specified shape — one block per alert, so
exactly N blocks for N alerts. -/
theorem get_alerts_success_blocks (world : World) (state : String)
    (resp : AlertResponse)
    (hok : make_request world AlertResponse.decode
      (NWS_API_BASE ++ "/alerts/active?area=" ++ state) = .ok resp)
    (hne : resp.features ≠ []) :
    get_alerts world state = String.join (resp.features.map specAlertBlock) ∧
    (resp.features.map specAlertBlock).length = resp.features.length := by
  constructor
  · have h1 : get_alerts world state = format_alerts resp.features := by
      simp [get_alerts, get_alertsT, make_requestT, hok]
    rw [h1, format_alerts_eq_join resp.features hne]
    have hsame : featureBlock = specAlertBlock := rfl
    rw [hsame]
  · simp

/-- Witness for C4: one alert, one block. -/
theorem get_alerts_success_blocks_witness :
    get_alerts
      (fun _ => FetchResult.http 200
        (Json.obj [("features", Json.arr
          [Json.obj [("properties", Json.obj
            [("event", Json.str "Flood Warning"),
             ("areaDesc", Json.str "Denver, CO"),
             ("severity", Json.str "Severe"),
             ("status", Json.str "Actual"),
             ("headline", Json.str "Flood Warning issued")])]])]))
      "CO" =
      String.join
        ((⟨[⟨⟨"Flood Warning", "Denver, CO", "Severe", "Actual",
              "Flood Warning issued"⟩⟩]⟩ : AlertResponse).features.map
          specAlertBlock) :=
  (get_alerts_success_blocks
    (fun _ => FetchResult.http 200
      (Json.obj [("features", Json.arr
        [Json.obj [("properties", Json.obj
          [("event", Json.str "Flood Warning"),
           ("areaDesc", Json.str "Denver, CO"),
           ("severity", Json.str "Severe"),
           ("status", Json.str "Actual"),
           ("headline", Json.str "Flood Warning issued")])]])]))
    "CO"
    ⟨[⟨⟨"Flood Warning", "Denver, CO", "Severe", "Actual",
        "Flood Warning issued"⟩⟩]⟩
    rfl (List.cons_ne_nil _ _)).1

/-- Claim C8: every entity decoded from upstream JSON — `FeatureProps`,
`Feature`, `AlertResponse`, `PointsProps`, `PointsResponse`, `Period`,
`GridPointsProps` and `GridPointsResponse` — is parsed strictly: a
successful decode fully populates every declared field from the
corresponding JSON field, a missing required field makes the whole decode
fail with an error, and a failing element inside the features array makes
the whole `AlertResponse` decode fail — no partially populated entity is
ever produced. -/
theorem decode_strictness :
    (∀ (j : Json) (p : FeatureProps), FeatureProps.decode j = .ok p →
      ∃ ev ar sv st hd,
        j.getField "event" = .some (.str ev) ∧
        j.getField "areaDesc" = .some (.str ar) ∧
        j.getField "severity" = .some (.str sv) ∧
        j.getField "status" = .some (.str st) ∧
        j.getField "headline" = .some (.str hd) ∧
        p = ⟨ev, ar, sv, st, hd⟩) ∧
    (∀ j : Json,
      (j.getField "event" = .none ∨ j.getField "areaDesc" = .none ∨
       j.getField "severity" = .none ∨ j.getField "status" = .none ∨
       j.getField "headline" = .none) →
      ∃ e, FeatureProps.decode j = .error e) ∧
    (∀ (j : Json) (f : Feature), Feature.decode j = .ok f →
      ∃ pj, j.getField "properties" = .some pj ∧
        FeatureProps.decode pj = .ok f.properties) ∧
    (∀ j : Json, j.getField "properties" = .none →
      ∃ e, Feature.decode j = .error e) ∧
    (∀ (j : Json) (r : AlertResponse), AlertResponse.decode j = .ok r →
      ∃ items, j.getField "features" = .some (.arr items) ∧
        items.length = r.features.length ∧
        ∀ x ∈ items, ∃ f2, Feature.decode x = .ok f2) ∧
    (∀ j : Json, j.getField "features" = .none →
      ∃ e, AlertResponse.decode j = .error e) ∧
    (∀ (items : List Json) (x : Json), x ∈ items →
      (∃ e, Feature.decode x = .error e) →
      ∃ e2, AlertResponse.decode (Json.obj [("features", Json.arr items)]) =
        .error e2) ∧
    (∀ (j : Json) (p : PointsProps), PointsProps.decode j = .ok p →
      ∃ u, j.getField "forecast" = .some (.str u) ∧ p = ⟨u⟩) ∧
    (∀ j : Json, j.getField "forecast" = .none →
      ∃ e, PointsProps.decode j = .error e) ∧
    (∀ (j : Json) (r : PointsResponse), PointsResponse.decode j = .ok r →
      ∃ pj, j.getField "properties" = .some pj ∧
        ∃ u, pj.getField "forecast" = .some (.str u) ∧ r = ⟨⟨u⟩⟩) ∧
    (∀ j : Json, j.getField "properties" = .none →
      ∃ e, PointsResponse.decode j = .error e) ∧
    (∀ (j : Json) (p : Period), Period.decode j = .ok p →
      ∃ nm t tu ws wd sf,
        j.getField "name" = .some (.str nm) ∧
        j.getField "temperature" = .some (.num t) ∧
        j.getField "temperatureUnit" = .some (.str tu) ∧
        j.getField "windSpeed" = .some (.str ws) ∧
        j.getField "windDirection" = .some (.str wd) ∧
        j.getField "shortForecast" = .some (.str sf) ∧
        p = ⟨nm, t, tu, ws, wd, sf⟩) ∧
    (∀ j : Json,
      (j.getField "name" = .none ∨ j.getField "temperature" = .none ∨
       j.getField "temperatureUnit" = .none ∨ j.getField "windSpeed" = .none ∨
       j.getField "windDirection" = .none ∨ j.getField "shortForecast" = .none) →
      ∃ e, Period.decode j = .error e) ∧
    (∀ (j : Json) (p : GridPointsProps), GridPointsProps.decode j = .ok p →
      ∃ items, j.getField "periods" = .some (.arr items) ∧
        items.length = p.periods.length ∧
        ∀ x ∈ items, ∃ pd, Period.decode x = .ok pd) ∧
    (∀ j : Json, j.getField "periods" = .none →
      ∃ e, GridPointsProps.decode j = .error e) ∧
    (∀ (j : Json) (r : GridPointsResponse), GridPointsResponse.decode j = .ok r →
      ∃ pj, j.getField "properties" = .some pj ∧
        ∃ items, pj.getField "periods" = .some (.arr items) ∧
          items.length = r.properties.periods.length ∧
          ∀ x ∈ items, ∃ pd, Period.decode x = .ok pd) ∧
    (∀ j : Json, j.getField "properties" = .none →
      ∃ e, GridPointsResponse.decode j = .error e) := by
  refine ⟨?_, ?_, ?_, ?_, ?_, ?_, ?_, ?_, ?_, ?_, ?_, ?_, ?_, ?_, ?_, ?_, ?_⟩
  · intro j p h
    exact featureProps_decode_ok h
  · intro j h
    exact featureProps_decode_missing h
  · intro j f h
    exact feature_decode_ok h
  · intro j h
    cases hr : Feature.decode j with
    | error e => exact ⟨e, rfl⟩
    | ok f =>
        obtain ⟨pj, hpj, _⟩ := feature_decode_ok hr
        simp_all
  · intro j r h
    obtain ⟨items, hitems, helems⟩ := alertResponse_decode_ok h
    exact ⟨items, hitems, decodeElems_ok_length helems,
      decodeElems_ok_mem helems⟩
  · intro j h
    cases hr : AlertResponse.decode j with
    | error e => exact ⟨e, rfl⟩
    | ok r =>
        obtain ⟨items, hitems, _⟩ := alertResponse_decode_ok hr
        simp_all
  · intro items x hx he
    obtain ⟨e, he2⟩ := he
    exact alertResponse_decode_error_of_bad_item hx he2
  · intro j p h
    exact pointsProps_decode_ok h
  · intro j h
    cases hr : PointsProps.decode j with
    | error e => exact ⟨e, rfl⟩
    | ok p =>
        obtain ⟨u, hu, _⟩ := pointsProps_decode_ok hr
        simp_all
  · intro j r h
    exact pointsResponse_decode_ok h
  · intro j h
    cases hr : PointsResponse.decode j with
    | error e => exact ⟨e, rfl⟩
    | ok r =>
        obtain ⟨pj, hpj, _⟩ := pointsResponse_decode_ok hr
        simp_all
  · intro j p h
    obtain ⟨nm, t, tu, ws, wd, sf, h1, h2, h3, h4, h5, h6, _, _, hp⟩ :=
      period_decode_ok h
    exact ⟨nm, t, tu, ws, wd, sf, h1, h2, h3, h4, h5, h6, hp⟩
  · intro j h
    exact period_decode_missing h
  · intro j p h
    obtain ⟨items, hitems, helems⟩ := gridPointsProps_decode_ok h
    exact ⟨items, hitems, decodeElems_ok_length helems,
      decodeElems_ok_mem helems⟩
  · intro j h
    cases hr : GridPointsProps.decode j with
    | error e => exact ⟨e, rfl⟩
    | ok p =>
        obtain ⟨items, hitems, _⟩ := gridPointsProps_decode_ok hr
        simp_all
  · intro j r h
    obtain ⟨pj, hpj, items, hitems, helems⟩ := gridPointsResponse_decode_ok h
    exact ⟨pj, hpj, items, hitems, decodeElems_ok_length helems,
      decodeElems_ok_mem helems⟩
  · intro j h
    cases hr : GridPointsResponse.decode j with
    | error e => exact ⟨e, rfl⟩
    | ok r =>
        obtain ⟨pj, hpj, _⟩ := gridPointsResponse_decode_ok hr
        simp_all

/-- Witness for C8: a missing required field fails the decode of each of
the entities, and a failing array element fails the whole response
decode. -/
theorem decode_strictness_witness :
    (∃ e, FeatureProps.decode (Json.obj []) = .error e) ∧
    (∃ e, Feature.decode (Json.obj []) = .error e) ∧
    (∃ e, PointsProps.decode (Json.obj []) = .error e) ∧
    (∃ e, PointsResponse.decode (Json.obj []) = .error e) ∧
    (∃ e, Period.decode (Json.obj [("name", Json.str "Tonight")]) = .error e) ∧
    (∃ e, GridPointsProps.decode (Json.obj []) = .error e) ∧
    (∃ e, GridPointsResponse.decode (Json.obj []) = .error e) ∧
    (∃ e2, AlertResponse.decode
      (Json.obj [("features", Json.arr [Json.null])]) = .error e2) := by
  obtain ⟨c1, c2, c3, c4, c5, c6, c7, c8, c9, c10, c11, c12, c13, c14, c15,
    c16, c17⟩ := decode_strictness
  exact ⟨c2 (Json.obj []) (Or.inl rfl),
    c4 (Json.obj []) rfl,
    c9 (Json.obj []) rfl,
    c11 (Json.obj []) rfl,
    c13 (Json.obj [("name", Json.str "Tonight")]) (Or.inr (Or.inl rfl)),
    c15 (Json.obj []) rfl,
    c17 (Json.obj []) rfl,
    c7 [Json.null] Json.null (by simp)
      ⟨"missing field " ++ "properties", rfl⟩⟩

/-- Claim C9: `get_alerts` fetches exactly the alerts URL with the state
inserted verbatim; `get_forecast` fetches first exactly the points URL
built from the latitude and longitude, and its second fetch, when the
first succeeds, is exactly the forecast URL of the decoded points
response. -/
theorem fetched_urls_exact (world : World) (state latitude longitude : String) :
    (get_alertsT world state).2 =
      [NWS_API_BASE ++ "/alerts/active?area=" ++ state] ∧
    ((get_forecastT world latitude longitude).2).head? =
      .some (NWS_API_BASE ++ "/points/" ++ latitude ++ "," ++ longitude) ∧
    (∀ p, make_request world PointsResponse.decode
        (NWS_API_BASE ++ "/points/" ++ latitude ++ "," ++ longitude) = .ok p →
      (get_forecastT world latitude longitude).2 =
        [NWS_API_BASE ++ "/points/" ++ latitude ++ "," ++ longitude,
         p.properties.forecast]) := by
  refine ⟨?_, ?_, ?_⟩
  · cases h : make_request world AlertResponse.decode
        (NWS_API_BASE ++ "/alerts/active?area=" ++ state) with
    | ok r => simp [get_alertsT, make_requestT, h]
    | error e => simp [get_alertsT, make_requestT, h]
  · cases h : make_request world PointsResponse.decode
        (NWS_API_BASE ++ "/points/" ++ latitude ++ "," ++ longitude) with
    | error e => simp [get_forecastT, make_requestT, h]
    | ok p =>
        cases h2 : make_request world GridPointsResponse.decode
            p.properties.forecast with
        | ok f => simp [get_forecastT, make_requestT, h, h2]
        | error e => simp [get_forecastT, make_requestT, h, h2]
  · intro p hp
    cases h2 : make_request world GridPointsResponse.decode
        p.properties.forecast with
    | ok f => simp [get_forecastT, make_requestT, hp, h2]
    | error e => simp [get_forecastT, make_requestT, hp, h2]

/-- A one-endpoint world for the C9 witness: every URL resolves to a valid
points response naming a grid URL. -/
def pointsOnlyWorld : World := fun _ =>
  FetchResult.http 200
    (Json.obj [("properties",
      Json.obj [("forecast", Json.str "https://api.weather.gov/grid")])])

/-- Witness for C9: the traces at concrete inputs. -/
theorem fetched_urls_exact_witness :
    (get_alertsT pointsOnlyWorld "TX").2 =
      [NWS_API_BASE ++ "/alerts/active?area=" ++ "TX"] ∧
    ((get_forecastT pointsOnlyWorld "39.74" "-104.99").2).head? =
      .some (NWS_API_BASE ++ "/points/" ++ "39.74" ++ "," ++ "-104.99") ∧
    (get_forecastT pointsOnlyWorld "39.74" "-104.99").2 =
      [NWS_API_BASE ++ "/points/" ++ "39.74" ++ "," ++ "-104.99",
       (⟨⟨"https://api.weather.gov/grid"⟩⟩ :
          PointsResponse).properties.forecast] := by
  have h := fetched_urls_exact pointsOnlyWorld "TX" "39.74" "-104.99"
  exact ⟨h.1, h.2.1, h.2.2 ⟨⟨"https://api.weather.gov/grid"⟩⟩ rfl⟩

/-- Claim C10: on any non-empty input, the output of `format_alerts` and of
`format_forecast` ends with a "---" line — the suffix "\n---\n" — and so
never equals any of the four fixed sentinel strings, letting a caller
distinguish success-with-data from the empty and failure cases. -/
theorem nonempty_output_never_sentinel (alerts : List Feature)
    (periods : List Period) (ha : alerts ≠ []) (hp : periods ≠ []) :
    (∃ s, format_alerts alerts = s ++ "\n---\n") ∧
    format_alerts alerts ≠ "No active alerts found." ∧
    format_alerts alerts ≠ "No forecast data available." ∧
    format_alerts alerts ≠ "No alerts found or an error occurred." ∧
    format_alerts alerts ≠ "No forecast found or an error occurred." ∧
    (∃ s, format_forecast periods = s ++ "\n---\n") ∧
    format_forecast periods ≠ "No active alerts found." ∧
    format_forecast periods ≠ "No forecast data available." ∧
    format_forecast periods ≠ "No alerts found or an error occurred." ∧
    format_forecast periods ≠ "No forecast found or an error occurred." := by
  have hA : ∃ s, format_alerts alerts = s ++ "\n---\n" := by
    rw [format_alerts_eq_join alerts ha]
    apply join_ends_with_sep
    · simp [ha]
    · intro b hb
      obtain ⟨a, ha2, hba⟩ := List.mem_map.mp hb
      exact ⟨"Event: " ++ a.properties.event ++
        "\nArea: " ++ a.properties.area_desc ++
        "\nSeverity: " ++ a.properties.severity ++
        "\nStatus: " ++ a.properties.status ++
        "\nHeadline: " ++ a.properties.headline, hba.symm⟩
  have hF : ∃ s, format_forecast periods = s ++ "\n---\n" := by
    rw [format_forecast_eq_join periods hp]
    apply join_ends_with_sep
    · simp [hp]
    · intro b hb
      obtain ⟨a, ha2, hba⟩ := List.mem_map.mp hb
      exact ⟨"Name: " ++ a.name ++
        "\nTemperature: " ++ toString a.temperature ++ "Â°" ++
        a.temperature_unit ++
        "\nWind: " ++ a.wind_speed ++ " " ++ a.wind_direction ++
        "\nForecast: " ++ a.short_forecast, hba.symm⟩
  obtain ⟨sa, hsa⟩ := hA
  obtain ⟨sf, hsf⟩ := hF
  refine ⟨⟨sa, hsa⟩, ?_, ?_, ?_, ?_, ⟨sf, hsf⟩, ?_, ?_, ?_, ?_⟩ <;>
    first
      | (rw [hsa]; exact append_sep_ne (by decide))
      | (rw [hsf]; exact append_sep_ne (by decide))

/-- Witness for C10: singleton inputs. -/
theorem nonempty_output_never_sentinel_witness :
    (∃ s, format_alerts [⟨⟨"E", "A", "S", "T", "H"⟩⟩] = s ++ "\n---\n") ∧
    format_alerts [⟨⟨"E", "A", "S", "T", "H"⟩⟩] ≠ "No active alerts found." ∧
    format_alerts [⟨⟨"E", "A", "S", "T", "H"⟩⟩] ≠ "No forecast data available." ∧
    format_alerts [⟨⟨"E", "A", "S", "T", "H"⟩⟩] ≠
      "No alerts found or an error occurred." ∧
    format_alerts [⟨⟨"E", "A", "S", "T", "H"⟩⟩] ≠
      "No forecast found or an error occurred." ∧
    (∃ s, format_forecast [⟨"N", 40, "F", "W", "D", "C"⟩] = s ++ "\n---\n") ∧
    format_forecast [⟨"N", 40, "F", "W", "D", "C"⟩] ≠ "No active alerts found." ∧
    format_forecast [⟨"N", 40, "F", "W", "D", "C"⟩] ≠
      "No forecast data available." ∧
    format_forecast [⟨"N", 40, "F", "W", "D", "C"⟩] ≠
      "No alerts found or an error occurred." ∧
    format_forecast [⟨"N", 40, "F", "W", "D", "C"⟩] ≠
      "No forecast found or an error occurred." :=
  nonempty_output_never_sentinel [⟨⟨"E", "A", "S", "T", "H"⟩⟩]
    [⟨"N", 40, "F", "W", "D", "C"⟩] (List.cons_ne_nil _ _) (List.cons_ne_nil _ _)

end Weather
